/-
  Verification of the Vintage Clothier configuration/recommendation engine
  (src/main.py, src/schemas.py).

  Shallow embedding notes:
  * Python `Optional[str]` fields are `Option String`; Python truthiness on
    such a field (`if result.get(key)`) is `truthyStr` (present and nonempty).
  * Python floats are modelled as `Rat`; `round(x, 2)` is `round2`
    (round half to even, Python's rounding mode).
  * A Mongo product document is `ProductDoc`.  `none` in an `Option` field
    means the key is absent from the dict.  The code consults the pluralised
    key first (`colors`) and falls back to the same-named singular key
    (`color`); a singular value that is not a list fails the
    `isinstance(options, list)` test, so the `...Alt` fields hold
    `Option (List String)` where `none` covers both "absent" and "not a list".
  * Database reads are passed in as explicit parameters (`lookup` for
    `find_one`, `catalog`/`fetch` for `get_documents`): the functions under
    test are otherwise pure.
-/
import Mathlib

namespace Clothier

/-- Python truthiness of an optional string field: present and nonempty. -/
def truthyStr : Option String → Bool
  | none => false
  | some s => !(s == "")

/-- Python truthiness of an optional float field: present and nonzero. -/
def truthyRat : Option Rat → Bool
  | none => false
  | some x => !(x == 0)

/-- `hasSubList n h` decides whether `n` occurs contiguously inside `h`
(Python's `n in h` on strings, mapped to char lists). -/
def hasSubList (n : List Char) : List Char → Bool
  | [] => n.isPrefixOf []
  | c :: t => n.isPrefixOf (c :: t) || hasSubList n t

/-- Python's substring test `needle in hay`. -/
def strHas (hay needle : String) : Bool := hasSubList needle.data hay.data

/-- Python's `str.lower()`, modelled per character (all strings the engine
lowers are ASCII, where the two agree). -/
def strLower (s : String) : String := ⟨s.data.map Char.toLower⟩

/-- Floor of a rational, computed on the normalised numerator/denominator. -/
def ratFloor (q : Rat) : Int := q.num.fdiv q.den

/-- Python's `round(q, 2)`: round to 2 decimal places, ties to even. -/
def round2 (q : Rat) : Rat :=
  let s : Rat := q * 100
  let f : Int := ratFloor s
  let frac : Rat := s - (f : Rat)
  let r : Int :=
    if frac < 1/2 then f
    else if (1 : Rat)/2 < frac then f + 1
    else if f % 2 = 0 then f else f + 1
  (r : Rat) / 100

/-- schemas.Measurement: optional bounded measurements. -/
structure Measurement where
  height_cm : Option Rat
  weight_kg : Option Rat
  chest_cm : Option Rat
  waist_cm : Option Rat
  hips_cm : Option Rat
  sleeve_cm : Option Rat
  inseam_cm : Option Rat
deriving DecidableEq, Repr

/-- An optional measurement field is either absent or inside its bounds. -/
def inRange (o : Option Rat) (lo hi : Rat) : Bool :=
  match o with
  | none => true
  | some x => decide (lo ≤ x ∧ x ≤ hi)

/-- Pydantic bounds on Measurement (schemas.py): every request that reaches
the engine has passed this validation. -/
def Measurement.valid (m : Measurement) : Prop :=
  inRange m.height_cm 100 230 = true ∧ inRange m.weight_kg 35 200 = true ∧
  inRange m.chest_cm 60 150 = true ∧ inRange m.waist_cm 50 150 = true ∧
  inRange m.hips_cm 60 160 = true ∧ inRange m.sleeve_cm 40 80 = true ∧
  inRange m.inseam_cm 60 100 = true

instance (m : Measurement) : Decidable m.valid := by
  unfold Measurement.valid
  infer_instance

/-- schemas.Customization; also serves as the `result` dict built by
`auto_complete_customization` (`cust.model_dump()` has exactly these keys). -/
structure Customization where
  product_id : Option String
  category : String
  color : Option String
  fabric : Option String
  size : Option String
  fit : Option String
  pattern : Option String
  preferences : Option String
  auto : Bool
  measurements : Option Measurement
deriving DecidableEq, Repr

/-- A product document as the engine sees it (a Mongo dict).  `id` models the
`_id` key.  The `...Alt` fields model a list stored under the singular key
(see header comment). -/
structure ProductDoc where
  id : Option String
  title : Option String
  category : Option String
  base_price : Option Rat
  colors : Option (List String)
  fabrics : Option (List String)
  sizes : Option (List String)
  fits : Option (List String)
  patterns : Option (List String)
  colorAlt : Option (List String)
  fabricAlt : Option (List String)
  sizeAlt : Option (List String)
  fitAlt : Option (List String)
  patternAlt : Option (List String)
deriving DecidableEq, Repr

/-- `product.get(key + "s") if key + "s" in product else product.get(key)`:
the pluralised list shadows the singular fallback even when empty. -/
def productList (plural alt : Option (List String)) : Option (List String) :=
  match plural with
  | some l => some l
  | none => alt

/-- One iteration of the inheritance loop: if the field is falsy and the
available options form a nonempty list, take the first option. -/
def pullField (opts : Option (List String)) (cur : Option String) : Option String :=
  if truthyStr cur then cur
  else
    match opts with
    | some (x :: _) => some x
    | _ => cur

/-- main.py lines 94-99: pull available options from the product for each of
color, fabric, size, fit, pattern. -/
def inheritFromProduct (p : ProductDoc) (r : Customization) : Customization :=
  { r with
    color := pullField (productList p.colors p.colorAlt) r.color
    fabric := pullField (productList p.fabrics p.fabricAlt) r.fabric
    size := pullField (productList p.sizes p.sizeAlt) r.size
    fit := pullField (productList p.fits p.fitAlt) r.fit
    pattern := pullField (productList p.patterns p.patternAlt) r.pattern }

/-- `result[k] = result.get(k) or v`. -/
def orDefault (cur : Option String) (v : String) : Option String :=
  if truthyStr cur then cur else some v

/-- main.py lines 81-91 and 101-103: the per-category defaults table, applied
to every key of the category's bundle. -/
def applyDefaults (cat : String) (r : Customization) : Customization :=
  if cat = "suit" then
    { r with fit := orDefault r.fit "tailored", fabric := orDefault r.fabric "worsted wool",
             color := orDefault r.color "navy", pattern := orDefault r.pattern "solid" }
  else if cat = "boots" then
    { r with color := orDefault r.color "oxblood", fabric := orDefault r.fabric "full-grain leather",
             fit := orDefault r.fit "regular" }
  else if cat = "shoes" then
    { r with color := orDefault r.color "chestnut", fabric := orDefault r.fabric "calf leather",
             fit := orDefault r.fit "regular" }
  else if cat = "hat" then
    { r with color := orDefault r.color "charcoal", fabric := orDefault r.fabric "felt",
             pattern := orDefault r.pattern "solid" }
  else if cat = "belt" then
    { r with color := orDefault r.color "dark brown", fabric := orDefault r.fabric "leather" }
  else if cat = "shirt" then
    { r with color := orDefault r.color "white", fabric := orDefault r.fabric "oxford",
             fit := orDefault r.fit "slim" }
  else if cat = "trousers" then
    { r with color := orDefault r.color "charcoal", fabric := orDefault r.fabric "wool",
             fit := orDefault r.fit "classic" }
  else r

/-- main.py lines 108-117: the chest-to-size band chain. -/
def sizeFromChest (c : Rat) : String :=
  if c < 90 then "XS"
  else if c < 96 then "S"
  else if c < 102 then "M"
  else if c < 110 then "L"
  else "XL"

/-- main.py lines 105-117: size inference, guarded by
`not result.get("size") and m and m.chest_cm`. -/
def applySize (m : Option Measurement) (r : Customization) : Customization :=
  if truthyStr r.size then r
  else
    match m with
    | none => r
    | some mm =>
      match mm.chest_cm with
      | none => r
      | some c => if c = 0 then r else { r with size := some (sizeFromChest c) }

/-- main.py lines 122-131: fabric bonus, first match wins, case-insensitive. -/
def fabricBonus : Option String → Rat
  | none => 0
  | some s =>
    if s = "" then 0
    else
      let f := strLower s
      if strHas f "cashmere" then 6/10
      else if strHas f "wool" then 25/100
      else if strHas f "leather" then 35/100
      else if strHas f "linen" then 15/100
      else 0

/-- main.py lines 132-133: pattern bonus. -/
def patternBonus : Option String → Rat
  | none => 0
  | some s =>
    if s = "" then 0
    else if ["pinstripe", "herringbone", "houndstooth"].contains (strLower s) then 1/10
    else 0

/-- main.py lines 134-135: fit bonus. -/
def fitBonus : Option String → Rat
  | none => 0
  | some s =>
    if s = "" then 0
    else if ["tailored", "slim"].contains (strLower s) then 5/100
    else 0

/-- `product.get("base_price", 300) if product else 300`. -/
def basePriceOf : Option ProductDoc → Rat
  | some p => p.base_price.getD 300
  | none => 300

/-- main.py lines 121-135: the accumulated multiplier. -/
def multiplierOf (r : Customization) : Rat :=
  1 + fabricBonus r.fabric + patternBonus r.pattern + fitBonus r.fit

/-- Output of the completion engine: the resolved field map and the price. -/
structure CompletionResult where
  config : Customization
  est_price : Rat
deriving DecidableEq, Repr

/-- The `result` dict after product-option inheritance (main.py 94-99) and
category defaults (main.py 101-103), before size inference. -/
def resolveBeforeSize (cust : Customization) (product : Option ProductDoc) :
    Customization :=
  let r1 := match product with
    | some p => inheritFromProduct p cust
    | none => cust
  applyDefaults cust.category r1

/-- main.py lines 75-139: `auto_complete_customization`. -/
def auto_complete_customization (cust : Customization) (product : Option ProductDoc) :
    CompletionResult :=
  let r3 := applySize cust.measurements (resolveBeforeSize cust product)
  { config := r3, est_price := round2 (basePriceOf product * multiplierOf r3) }

/-- The chest measurement carried by a request, when there is one. -/
def chestOf (cust : Customization) : Option Rat :=
  match cust.measurements with
  | none => none
  | some m => m.chest_cm

/-- main.py lines 142-155: `customize`.  `lookup` models the catalog read;
it returns `none` both when `ObjectId(pid)` raises and when `find_one`
misses, and it is consulted only when `product_id` is truthy. -/
def customize (cust : Customization) (lookup : String → Option ProductDoc) :
    CompletionResult :=
  let product : Option ProductDoc :=
    match cust.product_id with
    | none => none
    | some pid => if pid = "" then none else lookup pid
  auto_complete_customization cust product

/-- schemas.RecommendationRequest. -/
structure RecommendationRequest where
  purpose : Option String
  style : Option String
  climate : Option String
  budget : Option Rat
  category : Option String
  colors : Option (List String)
deriving DecidableEq, Repr

/-- A RecommendationRequest with every field unset. -/
def emptyRecReq : RecommendationRequest :=
  { purpose := none, style := none, climate := none, budget := none,
    category := none, colors := none }

/-- A product dict with no keys at all (building block for the seeds). -/
def emptyProduct : ProductDoc :=
  { id := none, title := none, category := none, base_price := none,
    colors := none, fabrics := none, sizes := none, fits := none, patterns := none,
    colorAlt := none, fabricAlt := none, sizeAlt := none, fitAlt := none,
    patternAlt := none }

/-- First fallback seed (main.py line 191). -/
def seedSuit : ProductDoc :=
  { emptyProduct with
    title := some "Savile Row Three-Piece Suit",
    category := some "suit", base_price := some 1200 }

/-- Second fallback seed (main.py line 192). -/
def seedBoots : ProductDoc :=
  { emptyProduct with
    title := some "Full-Grain Leather Boots",
    category := some "boots", base_price := some 380 }

/-- Third fallback seed (main.py line 193). -/
def seedShirt : ProductDoc :=
  { emptyProduct with
    title := some "Classic Oxford Shirt",
    category := some "shirt", base_price := some 120 }

/-- main.py lines 190-194: the fixed fallback seed set. -/
def seedProducts : List ProductDoc := [seedSuit, seedBoots, seedShirt]

/-- Python `o or d` on an optional string. -/
def orStr (o : Option String) (d : String) : String :=
  match o with
  | none => d
  | some s => if s = "" then d else s

/-- main.py line 200: `Customization(category=p.get("category", req.category or "suit"))`. -/
def candCust (req : RecommendationRequest) (p : ProductDoc) : Customization :=
  { product_id := none
    category := match p.category with
      | some c => c
      | none => orStr req.category "suit"
    color := none, fabric := none, size := none, fit := none, pattern := none
    preferences := none, auto := false, measurements := none }

/-- The completion run for one candidate (main.py line 201). -/
def candComp (req : RecommendationRequest) (p : ProductDoc) : CompletionResult :=
  auto_complete_customization (candCust req p) (some p)

/-- main.py line 203: `if req.budget and price > req.budget * 1.2: continue`. -/
def budgetSkips (budget : Option Rat) (price : Rat) : Bool :=
  match budget with
  | none => false
  | some b => if b = 0 then false else decide (price > b * (12/10))

/-- main.py lines 205-209: rationale, later matches overwrite earlier ones. -/
def rationaleOf (req : RecommendationRequest) : String :=
  let r1 := "Balanced choice with premium materials"
  let r2 := match req.style with
    | none => r1
    | some s =>
      if s = "" then r1
      else if ["vintage", "classic"].contains (strLower s) then
        "Vintage-forward aesthetic with timeless details"
      else r1
  match req.purpose with
  | none => r2
  | some s =>
    if s = "" then r2
    else if strHas (strLower s) "wedding" then "Formal-appropriate with elevated finishing"
    else r2

/-- schemas.Recommendation. -/
structure Recommendation where
  product_id : Option String
  title : Option String
  category : Option String
  suggested_config : Customization
  est_price : Rat
  rationale : String
deriving DecidableEq, Repr

/-- main.py lines 210-217: the record appended for a kept candidate. -/
def mkRec (req : RecommendationRequest) (p : ProductDoc) : Recommendation :=
  let comp := candComp req p
  { product_id := if truthyStr p.id then p.id else none
    title := p.title
    category := p.category
    suggested_config := comp.config
    est_price := comp.est_price
    rationale := rationaleOf req }

/-- main.py lines 199-219: the candidate loop with `continue` on the budget
filter and `break` once three recommendations are accumulated. -/
def recLoop (req : RecommendationRequest) : List ProductDoc → List Recommendation →
    List Recommendation
  | [], out => out
  | p :: ps, out =>
    if budgetSkips req.budget (candComp req p).est_price then recLoop req ps out
    else
      let out' := out ++ [mkRec req p]
      if 3 ≤ out'.length then out' else recLoop req ps out'

/-- main.py lines 181-221: `recommendations`.  `catalog` is what
`get_documents("product", filt, 50)` returned for this request. -/
def recommendations (req : RecommendationRequest) (catalog : List ProductDoc) :
    List Recommendation :=
  let products := if catalog.isEmpty then seedProducts else catalog
  recLoop req (products.take 6) []

/-
  Spec-side definitions (written from the specification's wording, to be
  compared against the source embedding above).
-/

/-- Spec §4.1 step 6: base = product's base_price if a product was supplied,
else a fixed default of 300. -/
def specBase : Option ProductDoc → Rat
  | some p => p.base_price.getD 300
  | none => 300

/-- Spec §4.1 step 6: fabric-name bonus, case-insensitive, first match wins
in the fixed order cashmere, wool, leather, linen. -/
def specFabricBonus : Option String → Rat
  | none => 0
  | some s =>
    let f := strLower s
    if strHas f "cashmere" then 60/100
    else if strHas f "wool" then 25/100
    else if strHas f "leather" then 35/100
    else if strHas f "linen" then 15/100
    else 0

/-- Spec §4.1 step 6: pattern is one of pinstripe, herringbone, houndstooth
(case-insensitive) → +0.10. -/
def specPatternBonus : Option String → Rat
  | none => 0
  | some s =>
    if strLower s = "pinstripe" ∨ strLower s = "herringbone" ∨ strLower s = "houndstooth"
    then 10/100 else 0

/-- Spec §4.1 step 6: fit is one of tailored, slim (case-insensitive) → +0.05. -/
def specFitBonus : Option String → Rat
  | none => 0
  | some s => if strLower s = "tailored" ∨ strLower s = "slim" then 5/100 else 0

/-- Spec §4.1 step 6: the multiplier starts at 1.0 and the three bonuses are
added, computed from the resolved configuration. -/
def specMultiplier (r : Customization) : Rat :=
  1 + specFabricBonus r.fabric + specPatternBonus r.pattern + specFitBonus r.fit

/-- Spec §4.1 step 5: the chest-to-size bands, closed-lower/open-upper. -/
def specBand (c : Rat) : String :=
  if c < 90 then "XS"
  else if 90 ≤ c ∧ c < 96 then "S"
  else if 96 ≤ c ∧ c < 102 then "M"
  else if 102 ≤ c ∧ c < 110 then "L"
  else "XL"

/-- Spec §4.2 step 5, as C5 words it: purpose containing "wedding" wins. -/
def specWedding (req : RecommendationRequest) : Bool :=
  match req.purpose with
  | none => false
  | some s => strHas (strLower s) "wedding"

/-- Spec §4.2 step 5: style in vintage, classic (case-insensitive). -/
def specVintage (req : RecommendationRequest) : Bool :=
  match req.style with
  | none => false
  | some s => strLower s == "vintage" || strLower s == "classic"

/-- Spec §4.2 step 5 in C5's priority order: wedding overrides style,
style overrides the default. -/
def specRationale (req : RecommendationRequest) : String :=
  if specWedding req then "Formal-appropriate with elevated finishing"
  else if specVintage req then "Vintage-forward aesthetic with timeless details"
  else "Balanced choice with premium materials"

/-- schemas.ChatMessage. -/
structure ChatMessage where
  role : String
  content : String
deriving DecidableEq, Repr

/-- main.py lines 228-229: the last user-authored message, or "". -/
def lastUserText (msgs : List ChatMessage) : String :=
  let userTexts := (msgs.filter (fun m => m.role == "user")).map (fun m => m.content)
  (userTexts.getLast?).getD ""

/-- main.py lines 232-240: the category keyword map, in insertion order. -/
def catMap : List (String × List String) :=
  [ ("suit", ["suit", "tux", "blazer"]),
    ("boots", ["boot"]),
    ("shoes", ["shoe", "oxford", "derby", "loafer"]),
    ("hat", ["hat", "fedora", "trilby"]),
    ("belt", ["belt"]),
    ("shirt", ["shirt", "oxford"]),
    ("trousers", ["trouser", "pant", "slacks"]) ]

/-- main.py lines 241-245: first category whose keyword list hits `last`. -/
def chosenCategory (last : String) : Option String :=
  (catMap.find? (fun kv => kv.2.any (fun w => strHas last w))).map (fun kv => kv.1)

/-- The router's reply plus, when a Ranker call happened, the request it was
given and the ranked list. -/
structure ChatResponse where
  reply : String
  ranked : Option (RecommendationRequest × List Recommendation)
deriving DecidableEq, Repr

/-- The catalog filter recommendations builds (main.py lines 183-185):
category only, and only when truthy. -/
def catalogFilter (req : RecommendationRequest) : Option String :=
  if truthyStr req.category then req.category else none

/-- main.py lines 226-257: `chat`.  `fetch` models
`get_documents("product", filt, 50)` as a function of the category filter. -/
def chat (msgs : List ChatMessage) (fetch : Option String → List ProductDoc) :
    ChatResponse :=
  let last := strLower (lastUserText msgs)
  match chosenCategory last with
  | some k =>
    let req := { emptyRecReq with category := some k, style := some "vintage" }
    let recs := recommendations req (fetch (catalogFilter req))
    { reply := "I recommend these " ++ k ++
        " options. Would you like me to tailor the fit and fabric to your climate and occasion?"
      ranked := some (req, recs) }
  | none =>
    if ["wedding", "business", "casual", "black tie"].any (fun w => strHas last w) then
      let purpose :=
        if strHas last "wedding" then "wedding"
        else if strHas last "business" then "business"
        else "casual"
      let req := { emptyRecReq with purpose := some purpose, style := some "classic" }
      let recs := recommendations req (fetch (catalogFilter req))
      { reply := "Here are refined picks for " ++ purpose ++ ".",
        ranked := some (req, recs) }
    else
      { reply := "Tell me what you're looking for (e.g., a navy suit for a wedding, leather boots for winter). I'll recommend configs and pricing."
        ranked := none }

/-
  Further definitions used by the statements below.
-/

/-- Both falsy, or both truthy and equal. -/
def falsyEquiv (a b : Option String) : Prop :=
  truthyStr a = truthyStr b ∧ (truthyStr a = true → a = b)

/-- Two requests that agree on category and measurements and are
falsy-equivalent on every fillable choice field. -/
def reqEquiv (c1 c2 : Customization) : Prop :=
  c1.category = c2.category ∧ c1.measurements = c2.measurements ∧
  falsyEquiv c1.color c2.color ∧ falsyEquiv c1.fabric c2.fabric ∧
  falsyEquiv c1.size c2.size ∧ falsyEquiv c1.fit c2.fit ∧
  falsyEquiv c1.pattern c2.pattern

instance (c1 c2 : Customization) : Decidable (reqEquiv c1 c2) := by
  unfold reqEquiv falsyEquiv
  infer_instance

/-- The complement of the budget filter: a candidate the loop keeps. -/
def keepB (req : RecommendationRequest) (p : ProductDoc) : Bool :=
  ! budgetSkips req.budget (candComp req p).est_price

/-- The request the router hands the Ranker on the category branch. -/
def catReq (k : String) : RecommendationRequest :=
  { emptyRecReq with category := some k, style := some "vintage" }

/-- A bare suit request: category only, everything else unset. -/
def bareSuitRequest : Customization :=
  { product_id := none, category := "suit", color := none, fabric := none,
    size := none, fit := none, pattern := none, preferences := none,
    auto := false, measurements := none }

/-- A valid measurement record carrying only a 100 cm chest. -/
def chestOnly100 : Measurement :=
  { height_cm := none, weight_kg := none, chest_cm := some 100, waist_cm := none,
    hips_cm := none, sleeve_cm := none, inseam_cm := none }

/-- A request in an unknown category with only a chest measurement. -/
def jacketChestRequest : Customization :=
  { bareSuitRequest with category := "jacket", measurements := some chestOnly100 }

/-- A suit request naming a product id that resolves to nothing. -/
def strayIdRequest : Customization :=
  { bareSuitRequest with product_id := some "nonexistent-id" }

/-- A one-product catalog whose only item is far above any small budget. -/
def richCatalog : List ProductDoc :=
  [ { emptyProduct with category := some "suit", base_price := some 1000 } ]

/-- A request whose budget (1) excludes every item of `richCatalog`. -/
def tinyBudgetReq : RecommendationRequest := { emptyRecReq with budget := some 1 }

/-
  Equivalence of the source's rule chains with the spec-side definitions.
-/

lemma str_beq_eq_decide (u v : String) : (u == v) = decide (u = v) := by
  by_cases h : u = v <;> simp [h]

lemma contains3_eq (a x y z : String) :
    ([x, y, z].contains a) = (a == x || a == y || a == z) := by
  simp [List.contains, List.elem_cons, str_beq_eq_decide, Bool.or_assoc]

lemma contains2_eq (a x y : String) :
    ([x, y].contains a) = (a == x || a == y) := by
  simp [List.contains, List.elem_cons, str_beq_eq_decide]

lemma basePriceOf_eq_spec (p : Option ProductDoc) : basePriceOf p = specBase p := by
  cases p <;> rfl

lemma fabricBonus_eq_spec (o : Option String) : fabricBonus o = specFabricBonus o := by
  cases o with
  | none => rfl
  | some s =>
    by_cases h : s = ""
    · subst h; decide
    · simp only [fabricBonus, specFabricBonus, if_neg h]
      split_ifs <;> norm_num

lemma patternBonus_eq_spec (o : Option String) : patternBonus o = specPatternBonus o := by
  cases o with
  | none => rfl
  | some s =>
    by_cases h : s = ""
    · subst h; decide
    · simp only [patternBonus, specPatternBonus, if_neg h, contains3_eq]
      split_ifs with h1 h2 <;> simp_all [Bool.or_eq_true, beq_iff_eq]
      all_goals norm_num

lemma fitBonus_eq_spec (o : Option String) : fitBonus o = specFitBonus o := by
  cases o with
  | none => rfl
  | some s =>
    by_cases h : s = ""
    · subst h; decide
    · simp only [fitBonus, specFitBonus, if_neg h, contains2_eq]
      split_ifs with h1 h2 <;> simp_all [Bool.or_eq_true, beq_iff_eq]

lemma multiplierOf_eq_spec (r : Customization) : multiplierOf r = specMultiplier r := by
  unfold multiplierOf specMultiplier
  rw [fabricBonus_eq_spec, patternBonus_eq_spec, fitBonus_eq_spec]

lemma sizeFromChest_eq_specBand (c : Rat) : sizeFromChest c = specBand c := by
  unfold sizeFromChest specBand
  rcases lt_or_ge c 90 with h1 | h1
  · simp [h1]
  have h1' : ¬ c < 90 := not_lt.mpr h1
  rcases lt_or_ge c 96 with h2 | h2
  · simp [h1', h1, h2]
  have h2' : ¬ c < 96 := not_lt.mpr h2
  rcases lt_or_ge c 102 with h3 | h3
  · simp [h1', h2', h3, h2]
  have h3' : ¬ c < 102 := not_lt.mpr h3
  rcases lt_or_ge c 110 with h4 | h4
  · simp [h1', h2', h3', h4, h3]
  have h4' : ¬ c < 110 := not_lt.mpr h4
  simp [h1', h2', h3', h4']

lemma rationaleOf_eq_spec (req : RecommendationRequest) :
    rationaleOf req = specRationale req := by
  unfold rationaleOf specRationale specWedding specVintage
  cases hp : req.purpose with
  | none =>
    cases hs : req.style with
    | none => rfl
    | some s =>
      by_cases h : s = ""
      · subst h; decide
      · simp [h, contains2_eq]
  | some t =>
    by_cases ht : t = ""
    · subst ht
      have hw0 : strHas (strLower "") "wedding" = false := by decide
      cases hs : req.style with
      | none => decide
      | some s =>
        by_cases h : s = ""
        · subst h; decide
        · simp [h, hw0, contains2_eq]
    · have hw0 : strHas (strLower t) "wedding" = false ∨
          strHas (strLower t) "wedding" = true := by
        cases strHas (strLower t) "wedding"
        · exact Or.inl rfl
        · exact Or.inr rfl
      rcases hw0 with hw | hw
      · simp only [if_neg ht, hw, Bool.false_eq_true, if_false]
        cases hs : req.style with
        | none => rfl
        | some s =>
          by_cases h : s = ""
          · subst h; decide
          · simp [h, contains2_eq]
      · simp [ht, hw]

/-
  The fill steps never read or write the echoed `auto` and `product_id`
  fields, so they commute with updates to them.
-/

lemma inherit_auto (p : ProductDoc) (r : Customization) (b : Bool) :
    inheritFromProduct p { r with auto := b } =
      { inheritFromProduct p r with auto := b } := rfl

lemma defaults_auto (cat : String) (r : Customization) (b : Bool) :
    applyDefaults cat { r with auto := b } = { applyDefaults cat r with auto := b } := by
  unfold applyDefaults
  split_ifs <;> rfl

lemma size_auto (m : Option Measurement) (r : Customization) (b : Bool) :
    applySize m { r with auto := b } = { applySize m r with auto := b } := by
  cases r
  cases m with
  | none =>
    unfold applySize
    dsimp only
    split_ifs <;> rfl
  | some mm =>
    cases hc : mm.chest_cm with
    | none =>
      unfold applySize
      dsimp only
      simp only [hc]
      split_ifs <;> rfl
    | some c =>
      unfold applySize
      dsimp only
      simp only [hc]
      split_ifs <;> rfl

lemma resolve_auto (cust : Customization) (product : Option ProductDoc) (b : Bool) :
    resolveBeforeSize { cust with auto := b } product =
      { resolveBeforeSize cust product with auto := b } := by
  cases product <;> simp [resolveBeforeSize, inherit_auto, defaults_auto]

lemma multiplier_auto (r : Customization) (b : Bool) :
    multiplierOf { r with auto := b } = multiplierOf r := rfl

lemma inherit_pid (p : ProductDoc) (r : Customization) (x : Option String) :
    inheritFromProduct p { r with product_id := x } =
      { inheritFromProduct p r with product_id := x } := rfl

lemma defaults_pid (cat : String) (r : Customization) (x : Option String) :
    applyDefaults cat { r with product_id := x } =
      { applyDefaults cat r with product_id := x } := by
  unfold applyDefaults
  split_ifs <;> rfl

lemma size_pid (m : Option Measurement) (r : Customization) (x : Option String) :
    applySize m { r with product_id := x } =
      { applySize m r with product_id := x } := by
  cases r
  cases m with
  | none =>
    unfold applySize
    dsimp only
    split_ifs <;> rfl
  | some mm =>
    cases hc : mm.chest_cm with
    | none =>
      unfold applySize
      dsimp only
      simp only [hc]
      split_ifs <;> rfl
    | some c =>
      unfold applySize
      dsimp only
      simp only [hc]
      split_ifs <;> rfl

lemma resolve_pid (cust : Customization) (product : Option ProductDoc) (x : Option String) :
    resolveBeforeSize { cust with product_id := x } product =
      { resolveBeforeSize cust product with product_id := x } := by
  cases product <;> simp [resolveBeforeSize, inherit_pid, defaults_pid]

lemma multiplier_pid (r : Customization) (x : Option String) :
    multiplierOf { r with product_id := x } = multiplierOf r := rfl

/-- Changing only `auto` changes only the echoed `auto` in the output. -/
lemma auto_complete_auto (cust : Customization) (product : Option ProductDoc) (b : Bool) :
    auto_complete_customization { cust with auto := b } product =
      { config := { (auto_complete_customization cust product).config with auto := b },
        est_price := (auto_complete_customization cust product).est_price } := by
  unfold auto_complete_customization
  simp only [resolve_auto, size_auto, multiplier_auto]

/-- Changing only `product_id` changes only the echoed `product_id` in the
output, for a fixed resolved product. -/
lemma auto_complete_pid (cust : Customization) (product : Option ProductDoc)
    (x : Option String) :
    auto_complete_customization { cust with product_id := x } product =
      { config := { (auto_complete_customization cust product).config with product_id := x },
        est_price := (auto_complete_customization cust product).est_price } := by
  unfold auto_complete_customization
  simp only [resolve_pid, size_pid, multiplier_pid]

/-
  Falsy-equivalence: two optional fields that are either both truthy and
  equal, or both falsy (absent or empty string).  Every fill step treats
  falsy-but-present exactly like absent, which is claim C3.
-/

lemma falsyEquiv_refl (a : Option String) : falsyEquiv a a := ⟨rfl, fun _ => rfl⟩

lemma falsyEquiv_of_eq {a b : Option String} (h : a = b) : falsyEquiv a b :=
  h ▸ falsyEquiv_refl a

lemma falsy_shape (a : Option String) (h : truthyStr a = false) :
    a = none ∨ a = some "" := by
  cases a with
  | none => exact Or.inl rfl
  | some s =>
    refine Or.inr ?_
    unfold truthyStr at h
    simp at h
    rw [h]

lemma pullField_equiv (o : Option (List String)) {a b : Option String}
    (h : falsyEquiv a b) : falsyEquiv (pullField o a) (pullField o b) := by
  obtain ⟨ht, he⟩ := h
  unfold pullField
  by_cases hta : truthyStr a = true
  · rw [if_pos hta, if_pos (ht.symm.trans hta), he hta]
    exact falsyEquiv_refl b
  · rw [if_neg hta, if_neg (fun hb => hta (ht.trans hb))]
    cases o with
    | none => exact ⟨ht, he⟩
    | some l =>
      cases l with
      | nil => exact ⟨ht, he⟩
      | cons x xs => exact falsyEquiv_refl _

lemma orDefault_equiv (v : String) {a b : Option String} (h : falsyEquiv a b) :
    orDefault a v = orDefault b v := by
  obtain ⟨ht, he⟩ := h
  unfold orDefault
  by_cases hta : truthyStr a = true
  · rw [if_pos hta, if_pos (ht.symm.trans hta), he hta]
  · rw [if_neg hta, if_neg (fun hb => hta (ht.trans hb))]

lemma inherit_equiv (p : ProductDoc) {r1 r2 : Customization} (h : reqEquiv r1 r2) :
    reqEquiv (inheritFromProduct p r1) (inheritFromProduct p r2) := by
  obtain ⟨hcat, hm, hc, hf, hs, hfit, hpa⟩ := h
  exact ⟨hcat, hm, pullField_equiv _ hc, pullField_equiv _ hf, pullField_equiv _ hs,
    pullField_equiv _ hfit, pullField_equiv _ hpa⟩

lemma defaults_equiv (cat : String) {r1 r2 : Customization} (h : reqEquiv r1 r2) :
    reqEquiv (applyDefaults cat r1) (applyDefaults cat r2) := by
  obtain ⟨hcat, hm, hc, hf, hs, hfit, hpa⟩ := h
  unfold applyDefaults
  split_ifs
  · exact ⟨hcat, hm, falsyEquiv_of_eq (orDefault_equiv _ hc),
      falsyEquiv_of_eq (orDefault_equiv _ hf), hs,
      falsyEquiv_of_eq (orDefault_equiv _ hfit), falsyEquiv_of_eq (orDefault_equiv _ hpa)⟩
  · exact ⟨hcat, hm, falsyEquiv_of_eq (orDefault_equiv _ hc),
      falsyEquiv_of_eq (orDefault_equiv _ hf), hs,
      falsyEquiv_of_eq (orDefault_equiv _ hfit), hpa⟩
  · exact ⟨hcat, hm, falsyEquiv_of_eq (orDefault_equiv _ hc),
      falsyEquiv_of_eq (orDefault_equiv _ hf), hs,
      falsyEquiv_of_eq (orDefault_equiv _ hfit), hpa⟩
  · exact ⟨hcat, hm, falsyEquiv_of_eq (orDefault_equiv _ hc),
      falsyEquiv_of_eq (orDefault_equiv _ hf), hs, hfit,
      falsyEquiv_of_eq (orDefault_equiv _ hpa)⟩
  · exact ⟨hcat, hm, falsyEquiv_of_eq (orDefault_equiv _ hc),
      falsyEquiv_of_eq (orDefault_equiv _ hf), hs, hfit, hpa⟩
  · exact ⟨hcat, hm, falsyEquiv_of_eq (orDefault_equiv _ hc),
      falsyEquiv_of_eq (orDefault_equiv _ hf), hs,
      falsyEquiv_of_eq (orDefault_equiv _ hfit), hpa⟩
  · exact ⟨hcat, hm, falsyEquiv_of_eq (orDefault_equiv _ hc),
      falsyEquiv_of_eq (orDefault_equiv _ hf), hs,
      falsyEquiv_of_eq (orDefault_equiv _ hfit), hpa⟩
  · exact ⟨hcat, hm, hc, hf, hs, hfit, hpa⟩

lemma size_equiv (m : Option Measurement) {r1 r2 : Customization} (h : reqEquiv r1 r2) :
    reqEquiv (applySize m r1) (applySize m r2) := by
  obtain ⟨hcat, hm, hc, hf, hs, hfit, hpa⟩ := h
  unfold applySize
  by_cases h1 : truthyStr r1.size = true
  · rw [if_pos h1, if_pos (hs.1.symm.trans h1)]
    exact ⟨hcat, hm, hc, hf, hs, hfit, hpa⟩
  · rw [if_neg h1, if_neg (fun hb => h1 (hs.1.trans hb))]
    cases m with
    | none => exact ⟨hcat, hm, hc, hf, hs, hfit, hpa⟩
    | some mm =>
      dsimp only
      cases hc2 : mm.chest_cm with
      | none => exact ⟨hcat, hm, hc, hf, hs, hfit, hpa⟩
      | some c =>
        dsimp only
        by_cases h0 : c = 0
        · rw [if_pos h0, if_pos h0]
          exact ⟨hcat, hm, hc, hf, hs, hfit, hpa⟩
        · rw [if_neg h0, if_neg h0]
          exact ⟨hcat, hm, hc, hf, falsyEquiv_refl _, hfit, hpa⟩

lemma fabricBonus_falsy {a : Option String} (h : truthyStr a = false) :
    fabricBonus a = 0 := by
  rcases falsy_shape a h with rfl | rfl <;> rfl

lemma patternBonus_falsy {a : Option String} (h : truthyStr a = false) :
    patternBonus a = 0 := by
  rcases falsy_shape a h with rfl | rfl <;> rfl

lemma fitBonus_falsy {a : Option String} (h : truthyStr a = false) :
    fitBonus a = 0 := by
  rcases falsy_shape a h with rfl | rfl <;> rfl

lemma fabricBonus_equiv {a b : Option String} (h : falsyEquiv a b) :
    fabricBonus a = fabricBonus b := by
  obtain ⟨ht, he⟩ := h
  cases hta : truthyStr a with
  | true => rw [he hta]
  | false => rw [fabricBonus_falsy hta, fabricBonus_falsy (ht.symm.trans hta)]

lemma patternBonus_equiv {a b : Option String} (h : falsyEquiv a b) :
    patternBonus a = patternBonus b := by
  obtain ⟨ht, he⟩ := h
  cases hta : truthyStr a with
  | true => rw [he hta]
  | false => rw [patternBonus_falsy hta, patternBonus_falsy (ht.symm.trans hta)]

lemma fitBonus_equiv {a b : Option String} (h : falsyEquiv a b) :
    fitBonus a = fitBonus b := by
  obtain ⟨ht, he⟩ := h
  cases hta : truthyStr a with
  | true => rw [he hta]
  | false => rw [fitBonus_falsy hta, fitBonus_falsy (ht.symm.trans hta)]

lemma multiplier_equiv {r1 r2 : Customization} (h : reqEquiv r1 r2) :
    multiplierOf r1 = multiplierOf r2 := by
  obtain ⟨hcat, hm, hc, hf, hs, hfit, hpa⟩ := h
  unfold multiplierOf
  rw [fabricBonus_equiv hf, patternBonus_equiv hpa, fitBonus_equiv hfit]

/-- The whole engine respects falsy-equivalence: equivalent requests give
the same price and falsy-equivalent resolved configurations. -/
lemma auto_complete_equiv {c1 c2 : Customization} (product : Option ProductDoc)
    (h : reqEquiv c1 c2) :
    (auto_complete_customization c1 product).est_price =
      (auto_complete_customization c2 product).est_price ∧
    reqEquiv (auto_complete_customization c1 product).config
      (auto_complete_customization c2 product).config := by
  have hres : reqEquiv (resolveBeforeSize c1 product) (resolveBeforeSize c2 product) := by
    unfold resolveBeforeSize
    cases product with
    | none => exact h.1 ▸ defaults_equiv _ h
    | some p => exact h.1 ▸ defaults_equiv _ (inherit_equiv p h)
  have hfin : reqEquiv (applySize c1.measurements (resolveBeforeSize c1 product))
      (applySize c2.measurements (resolveBeforeSize c2 product)) := by
    rw [h.2.1]
    exact size_equiv _ hres
  constructor
  · show round2 (basePriceOf product * multiplierOf _) =
      round2 (basePriceOf product * multiplierOf _)
    rw [multiplier_equiv hfin]
  · exact hfin

/-
  Preservation: a truthy field is never overwritten by any fill step.
-/

lemma pullField_truthy (o : Option (List String)) {cur : Option String}
    (h : truthyStr cur = true) : pullField o cur = cur := by
  unfold pullField
  rw [if_pos h]

lemma orDefault_truthy (v : String) {cur : Option String}
    (h : truthyStr cur = true) : orDefault cur v = cur := by
  unfold orDefault
  rw [if_pos h]

lemma inherit_keep_color (p : ProductDoc) (r : Customization)
    (h : truthyStr r.color = true) : (inheritFromProduct p r).color = r.color :=
  pullField_truthy _ h

lemma inherit_keep_fabric (p : ProductDoc) (r : Customization)
    (h : truthyStr r.fabric = true) : (inheritFromProduct p r).fabric = r.fabric :=
  pullField_truthy _ h

lemma inherit_keep_size (p : ProductDoc) (r : Customization)
    (h : truthyStr r.size = true) : (inheritFromProduct p r).size = r.size :=
  pullField_truthy _ h

lemma inherit_keep_fit (p : ProductDoc) (r : Customization)
    (h : truthyStr r.fit = true) : (inheritFromProduct p r).fit = r.fit :=
  pullField_truthy _ h

lemma inherit_keep_pattern (p : ProductDoc) (r : Customization)
    (h : truthyStr r.pattern = true) : (inheritFromProduct p r).pattern = r.pattern :=
  pullField_truthy _ h

lemma defaults_keep_color (cat : String) (r : Customization)
    (h : truthyStr r.color = true) : (applyDefaults cat r).color = r.color := by
  unfold applyDefaults
  split_ifs <;> first | rfl | exact orDefault_truthy _ h

lemma defaults_keep_fabric (cat : String) (r : Customization)
    (h : truthyStr r.fabric = true) : (applyDefaults cat r).fabric = r.fabric := by
  unfold applyDefaults
  split_ifs <;> first | rfl | exact orDefault_truthy _ h

lemma defaults_keep_fit (cat : String) (r : Customization)
    (h : truthyStr r.fit = true) : (applyDefaults cat r).fit = r.fit := by
  unfold applyDefaults
  split_ifs <;> first | rfl | exact orDefault_truthy _ h

lemma defaults_keep_pattern (cat : String) (r : Customization)
    (h : truthyStr r.pattern = true) : (applyDefaults cat r).pattern = r.pattern := by
  unfold applyDefaults
  split_ifs <;> first | rfl | exact orDefault_truthy _ h

lemma defaults_keep_size (cat : String) (r : Customization) :
    (applyDefaults cat r).size = r.size := by
  unfold applyDefaults
  split_ifs <;> rfl

lemma applySize_truthy (m : Option Measurement) {r : Customization}
    (h : truthyStr r.size = true) : applySize m r = r := by
  unfold applySize
  rw [if_pos h]

lemma applySize_keep (m : Option Measurement) (r : Customization) :
    (applySize m r).color = r.color ∧ (applySize m r).fabric = r.fabric ∧
    (applySize m r).fit = r.fit ∧ (applySize m r).pattern = r.pattern := by
  unfold applySize
  by_cases h : truthyStr r.size = true
  · rw [if_pos h]
    exact ⟨rfl, rfl, rfl, rfl⟩
  · rw [if_neg h]
    cases m with
    | none => exact ⟨rfl, rfl, rfl, rfl⟩
    | some mm =>
      dsimp only
      cases hc : mm.chest_cm with
      | none => exact ⟨rfl, rfl, rfl, rfl⟩
      | some c =>
        dsimp only
        by_cases h0 : c = 0
        · rw [if_pos h0]
          exact ⟨rfl, rfl, rfl, rfl⟩
        · rw [if_neg h0]
          exact ⟨rfl, rfl, rfl, rfl⟩

lemma applySize_none (r : Customization) : applySize none r = r := by
  unfold applySize
  split_ifs <;> rfl

lemma applySize_chest_none (mm : Measurement) (r : Customization)
    (hc : mm.chest_cm = none) : applySize (some mm) r = r := by
  unfold applySize
  by_cases h : truthyStr r.size = true
  · rw [if_pos h]
  · rw [if_neg h]
    dsimp only
    rw [hc]

lemma applySize_fills (mm : Measurement) (r : Customization) (c : Rat)
    (hns : ¬ truthyStr r.size = true) (hc : mm.chest_cm = some c) (h0 : ¬ c = 0) :
    applySize (some mm) r = { r with size := some (sizeFromChest c) } := by
  unfold applySize
  rw [if_neg hns]
  dsimp only
  rw [hc]
  dsimp only
  rw [if_neg h0]

/-
  The candidate loop is filter-then-take-3 over the first six candidates.
-/

lemma recLoop_eq_filter (req : RecommendationRequest) :
    ∀ (ps : List ProductDoc) (out : List Recommendation), out.length < 3 →
      recLoop req ps out =
        out ++ (((ps.filter (keepB req)).take (3 - out.length)).map (mkRec req)) := by
  intro ps
  induction ps with
  | nil => intro out h; simp [recLoop]
  | cons p t ih =>
    intro out h
    unfold recLoop
    by_cases hs : budgetSkips req.budget (candComp req p).est_price = true
    · rw [if_pos hs]
      have hk : keepB req p = false := by simp [keepB, hs]
      rw [ih out h, List.filter_cons_of_neg (by simp [hk])]
    · rw [if_neg hs]
      have hk : keepB req p = true := by
        unfold keepB
        cases hE : budgetSkips req.budget (candComp req p).est_price
        · rfl
        · exact absurd hE hs
      by_cases h3 : 3 ≤ (out ++ [mkRec req p]).length
      · rw [if_pos h3]
        have h3' : 3 ≤ out.length + 1 := by simpa using h3
        have hlen2 : out.length = 2 := by omega
        rw [List.filter_cons_of_pos hk, hlen2]
        rw [show (3 : Nat) - 2 = 0 + 1 from rfl, List.take_succ_cons, List.take_zero]
        simp
      · rw [if_neg h3]
        have hlen : (out ++ [mkRec req p]).length < 3 := Nat.lt_of_not_le h3
        rw [ih _ hlen, List.filter_cons_of_pos hk]
        have hlen1 : (out ++ [mkRec req p]).length = out.length + 1 := by simp
        have hsplit : 3 - out.length = (3 - (out.length + 1)) + 1 := by
          simp at hlen
          omega
        rw [hlen1, hsplit, List.take_succ_cons, List.map_cons]
        simp

lemma recommendations_eq_filter (req : RecommendationRequest)
    (catalog : List ProductDoc) :
    recommendations req catalog =
      ((((if catalog.isEmpty then seedProducts else catalog).take 6).filter
          (keepB req)).take 3).map (mkRec req) := by
  unfold recommendations
  rw [recLoop_eq_filter req _ [] (by norm_num)]
  simp

/-- Every recommendation the loop emits carries the request's rationale. -/
lemma recLoop_rationale (req : RecommendationRequest) :
    ∀ (ps : List ProductDoc) (out : List Recommendation) (r : Recommendation),
      (∀ x ∈ out, x.rationale = rationaleOf req) →
      r ∈ recLoop req ps out → r.rationale = rationaleOf req := by
  intro ps
  induction ps with
  | nil =>
    intro out r hout hr
    exact hout r (by simpa [recLoop] using hr)
  | cons p t ih =>
    intro out r hout hr
    unfold recLoop at hr
    by_cases hs : budgetSkips req.budget (candComp req p).est_price = true
    · rw [if_pos hs] at hr
      exact ih out r hout hr
    · rw [if_neg hs] at hr
      have hnew : ∀ x ∈ out ++ [mkRec req p], x.rationale = rationaleOf req := by
        intro x hx
        rcases List.mem_append.mp hx with hx' | hx'
        · exact hout x hx'
        · rw [List.mem_singleton.mp hx']
          rfl
      by_cases h3 : 3 ≤ (out ++ [mkRec req p]).length
      · rw [if_pos h3] at hr
        exact hnew r hr
      · rw [if_neg h3] at hr
        exact ih _ r hnew hr

/-
  Per-field preservation through the whole engine.
-/

lemma complete_keep_color (cust : Customization) (product : Option ProductDoc)
    (h : truthyStr cust.color = true) :
    (auto_complete_customization cust product).config.color = cust.color := by
  have hR : (resolveBeforeSize cust product).color = cust.color := by
    unfold resolveBeforeSize
    cases product with
    | none => exact defaults_keep_color _ _ h
    | some p =>
      have h1 : (inheritFromProduct p cust).color = cust.color := inherit_keep_color p cust h
      calc (applyDefaults cust.category (inheritFromProduct p cust)).color
          = (inheritFromProduct p cust).color :=
            defaults_keep_color _ _ (by rw [h1]; exact h)
        _ = cust.color := h1
  calc (auto_complete_customization cust product).config.color
      = (applySize cust.measurements (resolveBeforeSize cust product)).color := rfl
    _ = (resolveBeforeSize cust product).color := (applySize_keep _ _).1
    _ = cust.color := hR

lemma complete_keep_fabric (cust : Customization) (product : Option ProductDoc)
    (h : truthyStr cust.fabric = true) :
    (auto_complete_customization cust product).config.fabric = cust.fabric := by
  have hR : (resolveBeforeSize cust product).fabric = cust.fabric := by
    unfold resolveBeforeSize
    cases product with
    | none => exact defaults_keep_fabric _ _ h
    | some p =>
      have h1 : (inheritFromProduct p cust).fabric = cust.fabric := inherit_keep_fabric p cust h
      calc (applyDefaults cust.category (inheritFromProduct p cust)).fabric
          = (inheritFromProduct p cust).fabric :=
            defaults_keep_fabric _ _ (by rw [h1]; exact h)
        _ = cust.fabric := h1
  calc (auto_complete_customization cust product).config.fabric
      = (applySize cust.measurements (resolveBeforeSize cust product)).fabric := rfl
    _ = (resolveBeforeSize cust product).fabric := (applySize_keep _ _).2.1
    _ = cust.fabric := hR

lemma complete_keep_fit (cust : Customization) (product : Option ProductDoc)
    (h : truthyStr cust.fit = true) :
    (auto_complete_customization cust product).config.fit = cust.fit := by
  have hR : (resolveBeforeSize cust product).fit = cust.fit := by
    unfold resolveBeforeSize
    cases product with
    | none => exact defaults_keep_fit _ _ h
    | some p =>
      have h1 : (inheritFromProduct p cust).fit = cust.fit := inherit_keep_fit p cust h
      calc (applyDefaults cust.category (inheritFromProduct p cust)).fit
          = (inheritFromProduct p cust).fit :=
            defaults_keep_fit _ _ (by rw [h1]; exact h)
        _ = cust.fit := h1
  calc (auto_complete_customization cust product).config.fit
      = (applySize cust.measurements (resolveBeforeSize cust product)).fit := rfl
    _ = (resolveBeforeSize cust product).fit := (applySize_keep _ _).2.2.1
    _ = cust.fit := hR

lemma complete_keep_pattern (cust : Customization) (product : Option ProductDoc)
    (h : truthyStr cust.pattern = true) :
    (auto_complete_customization cust product).config.pattern = cust.pattern := by
  have hR : (resolveBeforeSize cust product).pattern = cust.pattern := by
    unfold resolveBeforeSize
    cases product with
    | none => exact defaults_keep_pattern _ _ h
    | some p =>
      have h1 : (inheritFromProduct p cust).pattern = cust.pattern :=
        inherit_keep_pattern p cust h
      calc (applyDefaults cust.category (inheritFromProduct p cust)).pattern
          = (inheritFromProduct p cust).pattern :=
            defaults_keep_pattern _ _ (by rw [h1]; exact h)
        _ = cust.pattern := h1
  calc (auto_complete_customization cust product).config.pattern
      = (applySize cust.measurements (resolveBeforeSize cust product)).pattern := rfl
    _ = (resolveBeforeSize cust product).pattern := (applySize_keep _ _).2.2.2
    _ = cust.pattern := hR

lemma complete_keep_size (cust : Customization) (product : Option ProductDoc)
    (h : truthyStr cust.size = true) :
    (auto_complete_customization cust product).config.size = cust.size := by
  have hR : (resolveBeforeSize cust product).size = cust.size := by
    unfold resolveBeforeSize
    cases product with
    | none => exact defaults_keep_size _ _
    | some p =>
      calc (applyDefaults cust.category (inheritFromProduct p cust)).size
          = (inheritFromProduct p cust).size := defaults_keep_size _ _
        _ = cust.size := inherit_keep_size p cust h
  calc (auto_complete_customization cust product).config.size
      = (applySize cust.measurements (resolveBeforeSize cust product)).size := rfl
    _ = (resolveBeforeSize cust product).size := by
        rw [applySize_truthy _ (by rw [hR]; exact h)]
    _ = cust.size := hR

/-- Collapsing a double `product_id` update. -/
lemma pid_eta (cust : Customization) :
    ({ ({ cust with product_id := none } : Customization) with
       product_id := cust.product_id } : Customization) = cust := by
  cases cust
  rfl

/-
  The claims.
-/

unseal Rat.add Rat.mul Rat.inv Rat.sub in
/-- C1: for every resolved configuration the estimated price is
round(base × multiplier, 2) with base the product's base_price (300 without
a product) and the multiplier 1.0 plus the first-match fabric bonus, the
pattern bonus and the fit bonus, all read off the resolved configuration;
in particular a bare suit request with no product prices at 390. -/
theorem claim_C1 :
    (∀ (cust : Customization) (product : Option ProductDoc),
      (auto_complete_customization cust product).est_price =
        round2 (specBase product *
          specMultiplier (auto_complete_customization cust product).config)) ∧
    (auto_complete_customization bareSuitRequest none).est_price = 390 := by
  constructor
  · intro cust product
    show round2 (basePriceOf product *
        multiplierOf (applySize cust.measurements (resolveBeforeSize cust product))) =
      round2 (specBase product *
        specMultiplier (applySize cust.measurements (resolveBeforeSize cust product)))
    rw [basePriceOf_eq_spec, multiplierOf_eq_spec]
  · decide

/-- C2: when the size is still unset after inheritance and defaults, a
present (schema-valid) chest measurement selects the spec's band, and
without a chest measurement the size field is left exactly as it was. -/
theorem claim_C2 (cust : Customization) (product : Option ProductDoc)
    (hv : ∀ m, cust.measurements = some m → m.valid)
    (hunset : truthyStr (resolveBeforeSize cust product).size = false) :
    (∀ c, chestOf cust = some c →
      (auto_complete_customization cust product).config.size = some (specBand c)) ∧
    (chestOf cust = none →
      (auto_complete_customization cust product).config.size =
        (resolveBeforeSize cust product).size) := by
  constructor
  · intro c hcc
    unfold chestOf at hcc
    cases hm : cust.measurements with
    | none =>
      rw [hm] at hcc
      exact Option.noConfusion hcc
    | some m =>
      rw [hm] at hcc
      replace hcc : m.chest_cm = some c := hcc
      have hval := hv m hm
      have hrange : 60 ≤ c ∧ c ≤ 150 := by
        have h3 := hval.2.2.1
        unfold inRange at h3
        rw [hcc] at h3
        exact of_decide_eq_true h3
      have h0 : ¬ c = 0 := by
        intro hzero
        rw [hzero] at hrange
        have := hrange.1
        norm_num at this
      show (applySize cust.measurements (resolveBeforeSize cust product)).size = _
      rw [hm, applySize_fills m _ c (by rw [hunset]; exact Bool.false_ne_true) hcc h0]
      show some (sizeFromChest c) = some (specBand c)
      rw [sizeFromChest_eq_specBand]
  · intro hnone
    unfold chestOf at hnone
    show (applySize cust.measurements (resolveBeforeSize cust product)).size = _
    cases hm : cust.measurements with
    | none => rw [applySize_none]
    | some m =>
      rw [hm] at hnone
      replace hnone : m.chest_cm = none := hnone
      rw [applySize_chest_none m _ hnone]

/-- C2 witness: a request in an unknown category carrying only a 100 cm
chest resolves to the M band. -/
theorem claim_C2_witness :
    (auto_complete_customization jacketChestRequest none).config.size =
      some (specBand 100) :=
  (claim_C2 jacketChestRequest none
    (fun m hm => (Option.some.inj hm) ▸ (by decide : chestOnly100.valid))
    (by decide)).1 100 (by decide)

/-- C3: non-empty user-supplied choice fields survive verbatim, and
falsy-equivalent requests (empty string treated as absent at every fill
step) produce the same price and falsy-equivalent resolved configurations. -/
theorem claim_C3 (cust1 cust2 : Customization) (product : Option ProductDoc)
    (h : reqEquiv cust1 cust2) :
    ((truthyStr cust1.color = true →
        (auto_complete_customization cust1 product).config.color = cust1.color) ∧
     (truthyStr cust1.fabric = true →
        (auto_complete_customization cust1 product).config.fabric = cust1.fabric) ∧
     (truthyStr cust1.size = true →
        (auto_complete_customization cust1 product).config.size = cust1.size) ∧
     (truthyStr cust1.fit = true →
        (auto_complete_customization cust1 product).config.fit = cust1.fit) ∧
     (truthyStr cust1.pattern = true →
        (auto_complete_customization cust1 product).config.pattern = cust1.pattern)) ∧
    ((auto_complete_customization cust1 product).est_price =
        (auto_complete_customization cust2 product).est_price ∧
      reqEquiv (auto_complete_customization cust1 product).config
        (auto_complete_customization cust2 product).config) := by
  refine ⟨⟨?_, ?_, ?_, ?_, ?_⟩, auto_complete_equiv product h⟩
  · exact complete_keep_color cust1 product
  · exact complete_keep_fabric cust1 product
  · exact complete_keep_size cust1 product
  · exact complete_keep_fit cust1 product
  · exact complete_keep_pattern cust1 product

unseal Rat.add Rat.mul Rat.inv Rat.sub in
/-- C3 witness: an empty-string color is treated as absent and priced
identically to a request with no color at all. -/
theorem claim_C3_witness :
    (auto_complete_customization { bareSuitRequest with color := some "" } none).est_price =
      (auto_complete_customization bareSuitRequest none).est_price :=
  (claim_C3 { bareSuitRequest with color := some "" } bareSuitRequest none (by decide)).2.1

unseal Rat.add Rat.mul Rat.inv Rat.sub in
/-- C4 counterexample: budget 0 is set, every fallback candidate prices
above 0 × 1.2, yet all three are kept rather than skipped. -/
theorem claim_C4_cex :
    (recommendations { emptyRecReq with budget := some 0 } []).length = 3 ∧
    (∀ r ∈ recommendations { emptyRecReq with budget := some 0 } [],
      (0 : Rat) * (12/10) < r.est_price) := by decide

/-- C4 (amended): with budget unset or zero no candidate is skipped on
price; with a nonzero budget b the loop is exactly filter-then-take-3 by
est_price ≤ b × 1.2 (boundary kept, strictly above dropped). -/
theorem claim_C4 (req : RecommendationRequest) (catalog : List ProductDoc) :
    ((req.budget = none ∨ req.budget = some 0) →
      recommendations req catalog =
        (((if catalog.isEmpty then seedProducts else catalog).take 6).take 3).map
          (mkRec req)) ∧
    (∀ b, req.budget = some b → b ≠ 0 →
      recommendations req catalog =
        ((((if catalog.isEmpty then seedProducts else catalog).take 6).filter
            (fun p => decide ((candComp req p).est_price ≤ b * (12/10)))).take 3).map
          (mkRec req)) := by
  constructor
  · intro hb
    rw [recommendations_eq_filter]
    have hk : ∀ p, keepB req p = true := by
      intro p
      unfold keepB budgetSkips
      rcases hb with hb | hb <;> rw [hb] <;> rfl
    rw [List.filter_congr (fun p _ => hk p), List.filter_true]
  · intro b hb h0
    rw [recommendations_eq_filter]
    have hk : ∀ p, keepB req p =
        decide ((candComp req p).est_price ≤ b * (12/10)) := by
      intro p
      unfold keepB budgetSkips
      rw [hb]
      show (!if b = 0 then false
        else decide ((candComp req p).est_price > b * (12/10))) = _
      rw [if_neg h0, ← decide_not, decide_eq_decide]
      exact not_lt
    rw [List.filter_congr (fun p _ => hk p)]

unseal Rat.add Rat.mul Rat.inv Rat.sub in
/-- C4 witness: at budget 1300 the filter keeps exactly the candidates at
most 1560 = 1300 × 1.2 (the boundary seed is kept). -/
theorem claim_C4_witness :
    recommendations { emptyRecReq with budget := some 1300 } [] =
      (((seedProducts.take 6).filter
          (fun p => decide ((candComp { emptyRecReq with budget := some 1300 } p).est_price ≤
            1300 * (12/10)))).take 3).map
        (mkRec { emptyRecReq with budget := some 1300 }) :=
  (claim_C4 { emptyRecReq with budget := some 1300 } []).2 1300 rfl (by norm_num)

/-- C5: every emitted recommendation's rationale follows the spec priority:
wedding purpose first, then vintage/classic style, else the default. -/
theorem claim_C5 (req : RecommendationRequest) (catalog : List ProductDoc)
    (r : Recommendation) (hr : r ∈ recommendations req catalog) :
    r.rationale = specRationale req := by
  rw [← rationaleOf_eq_spec]
  unfold recommendations at hr
  exact recLoop_rationale req _ [] r (by intro x hx; cases hx) hr

unseal Rat.add Rat.mul Rat.inv Rat.sub in
/-- C5 witness: the first fallback recommendation of an empty request
carries the default rationale required by the spec priority. -/
theorem claim_C5_witness :
    (mkRec emptyRecReq seedSuit) ∈ recommendations emptyRecReq [] ∧
    (mkRec emptyRecReq seedSuit).rationale = specRationale emptyRecReq :=
  ⟨by decide, claim_C5 emptyRecReq [] (mkRec emptyRecReq seedSuit) (by decide)⟩

/-- C6: an empty catalog (budget removing nothing) yields exactly the three
fallback recommendations, with null product ids and the seed titles. -/
theorem claim_C6 (req : RecommendationRequest)
    (h : ∀ p ∈ seedProducts, budgetSkips req.budget (candComp req p).est_price = false) :
    recommendations req [] =
      [mkRec req seedSuit, mkRec req seedBoots, mkRec req seedShirt] ∧
    (∀ r ∈ recommendations req [], r.product_id = none) ∧
    (recommendations req []).map (fun r => r.title) =
      [some "Savile Row Three-Piece Suit", some "Full-Grain Leather Boots",
       some "Classic Oxford Shirt"] := by
  have h1 := h seedSuit (by simp [seedProducts])
  have h2 := h seedBoots (by simp [seedProducts])
  have h3 := h seedShirt (by simp [seedProducts])
  have hmain : recommendations req [] =
      [mkRec req seedSuit, mkRec req seedBoots, mkRec req seedShirt] := by
    show recLoop req [seedSuit, seedBoots, seedShirt] [] = _
    simp [recLoop, h1, h2, h3]
  refine ⟨hmain, ?_, ?_⟩
  · intro r hr
    rw [hmain] at hr
    simp only [List.mem_cons, List.not_mem_nil, or_false] at hr
    rcases hr with rfl | rfl | rfl <;> rfl
  · rw [hmain]
    rfl

/-- C6 witness: with no budget at all, the empty catalog produces the three
seed recommendations. -/
theorem claim_C6_witness :
    recommendations emptyRecReq [] =
      [mkRec emptyRecReq seedSuit, mkRec emptyRecReq seedBoots,
       mkRec emptyRecReq seedShirt] :=
  (claim_C6 emptyRecReq (by decide)).1

unseal Rat.add Rat.mul Rat.inv Rat.sub in
/-- C7 counterexample: a dangling product id is echoed back in the config,
so the full result differs from the no-product_id request's result. -/
theorem claim_C7_cex :
    customize strayIdRequest (fun _ => none) ≠
      customize { strayIdRequest with product_id := none } (fun _ => none) := by
  decide

/-- C7 (amended): an unresolvable product_id behaves exactly like no
product_id — same price, same resolved configuration — except that the
supplied id is still echoed in the config's product_id field. -/
theorem claim_C7 (cust : Customization) (lookup : String → Option ProductDoc)
    (hmiss : ∀ pid, cust.product_id = some pid → lookup pid = none) :
    (customize cust lookup).est_price =
      (customize { cust with product_id := none } lookup).est_price ∧
    (customize cust lookup).config =
      { (customize { cust with product_id := none } lookup).config with
        product_id := cust.product_id } := by
  have hprod : (match cust.product_id with
      | none => (none : Option ProductDoc)
      | some pid => if pid = "" then none else lookup pid) = none := by
    cases hp : cust.product_id with
    | none => rfl
    | some pid =>
      by_cases he : pid = ""
      · simp [he]
      · simp [he, hmiss pid hp]
  have e1 : customize cust lookup = auto_complete_customization cust none := by
    unfold customize
    rw [hprod]
  have e2 : customize { cust with product_id := none } lookup =
      auto_complete_customization { cust with product_id := none } none := rfl
  have e3 : auto_complete_customization cust none =
      { config := { (auto_complete_customization
            { cust with product_id := none } none).config with
          product_id := cust.product_id },
        est_price := (auto_complete_customization
            { cust with product_id := none } none).est_price } := by
    conv_lhs => rw [← pid_eta cust]
    rw [auto_complete_pid]
  constructor
  · rw [e1, e2, e3]
  · rw [e1, e2, e3]

/-- C7 witness: the amended statement at a concrete dangling id. -/
theorem claim_C7_witness :
    (customize strayIdRequest (fun _ => none)).est_price =
      (customize { strayIdRequest with product_id := none } (fun _ => none)).est_price :=
  (claim_C7 strayIdRequest (fun _ => none) (fun _ _ => rfl)).1

/-- C8: a category keyword in the last user message always takes the
category branch with style "vintage", and the suit-and-wedding utterance
gets the suit reply, not the wedding one. -/
theorem claim_C8 :
    (∀ (msgs : List ChatMessage) (fetch : Option String → List ProductDoc) (k : String),
      chosenCategory (strLower (lastUserText msgs)) = some k →
        (chat msgs fetch).reply = "I recommend these " ++ k ++
          " options. Would you like me to tailor the fit and fabric to your climate and occasion?" ∧
        (chat msgs fetch).ranked =
          some (catReq k, recommendations (catReq k) (fetch (catalogFilter (catReq k))))) ∧
    (∀ fetch : Option String → List ProductDoc,
      chosenCategory (strLower (lastUserText
        [{ role := "user", content := "I need a navy suit for a wedding" }])) = some "suit" ∧
      strHas (strLower "I need a navy suit for a wedding") "wedding" = true ∧
      (chat [{ role := "user", content := "I need a navy suit for a wedding" }] fetch).reply =
        "I recommend these suit options. Would you like me to tailor the fit and fabric to your climate and occasion?" ∧
      (chat [{ role := "user", content := "I need a navy suit for a wedding" }] fetch).ranked =
        some (catReq "suit",
          recommendations (catReq "suit") (fetch (some "suit")))) := by
  have hmain : ∀ (msgs : List ChatMessage) (fetch : Option String → List ProductDoc)
      (k : String), chosenCategory (strLower (lastUserText msgs)) = some k →
        (chat msgs fetch).reply = "I recommend these " ++ k ++
          " options. Would you like me to tailor the fit and fabric to your climate and occasion?" ∧
        (chat msgs fetch).ranked =
          some (catReq k, recommendations (catReq k) (fetch (catalogFilter (catReq k)))) := by
    intro msgs fetch k hk
    unfold chat
    dsimp only
    rw [hk]
    exact ⟨rfl, rfl⟩
  refine ⟨hmain, fun fetch => ⟨by decide, by decide, ?_, ?_⟩⟩
  · exact (hmain _ fetch "suit" (by decide)).1
  · exact (hmain _ fetch "suit" (by decide)).2

/-- C8 witness: the general branch applied to a concrete boots utterance. -/
theorem claim_C8_witness :
    (chat [{ role := "user", content := "show me boots" }] (fun _ => [])).reply =
      "I recommend these boots options. Would you like me to tailor the fit and fabric to your climate and occasion?" :=
  ((claim_C8).1 [{ role := "user", content := "show me boots" }] (fun _ => [])
    "boots" (by decide)).1

unseal Rat.add Rat.mul Rat.inv Rat.sub in
/-- C9 counterexample: the advisory `auto` flag is echoed into the resolved
configuration, so flipping it does change the returned config. -/
theorem claim_C9_cex :
    (auto_complete_customization { bareSuitRequest with auto := true } none).config ≠
      (auto_complete_customization bareSuitRequest none).config := by
  decide

/-- C9 (amended): the auto flag influences nothing but its own echo: the
output with auto := b is the output's config with auto := b and the very
same estimated price. -/
theorem claim_C9 (cust : Customization) (product : Option ProductDoc) (b : Bool) :
    auto_complete_customization { cust with auto := b } product =
      { config := { (auto_complete_customization cust product).config with auto := b },
        est_price := (auto_complete_customization cust product).est_price } :=
  auto_complete_auto cust product b

unseal Rat.add Rat.mul Rat.inv Rat.sub in
/-- C10: the fallback seeds are substituted only for an empty catalog fetch:
a nonempty catalog whose every candidate the budget filter removes yields an
empty recommendation list, not the seeds. -/
theorem claim_C10 :
    richCatalog ≠ [] ∧
    (∀ p ∈ richCatalog,
      budgetSkips tinyBudgetReq.budget (candComp tinyBudgetReq p).est_price = true) ∧
    recommendations tinyBudgetReq richCatalog = [] := by
  decide

end Clothier
